import Mathlib

/-!
# Personal Risk Radar — verification of the assessment engine and domain model

Shallow embedding of the repository's core:
  * `src/domain/models.py` — `RiskCategory`, `TimeHorizon`, `SignalStrength`,
    `SignalDirection`, `Risk`, `Signal`, `Assessment` (pydantic models with
    field constraints checked at construction time);
  * `src/domain/scoring.py` — `calculate_effective_likelihood`,
    `calculate_risk_score`, `assess_risk`, `assess_all_risks`;
  * `src/api/data_input.py` — `validate_and_clean_risk_data` and the row loop
    of `upload_risks_csv`.

Conventions of the embedding:
  * Python floats are modelled as exact rationals `ℚ` (the spec's exact
    real-number model; the magnitudes 0.05 / 0.10 / 0.20 are exact rationals).
  * Python ints are `ℤ`; optional values are `Option`; a raised exception is
    the `Except.error` branch.
  * Wall-clock metadata (`created_at`, `updated_at`, `observed_at`,
    `assessed_at`) is environment-supplied (`datetime.now`) and carries no
    logic; those fields are omitted from the embedding.
  * A pydantic model constructor is a function returning `Option`: `some`
    when every field constraint holds, `none` for a `ValidationError`.
-/

/-- `RiskCategory(str, Enum)` from `src/domain/models.py` (values are the
uppercase strings). -/
inductive RiskCategory where
  | CAREER
  | FINANCIAL
  | HEALTH
  | TECHNICAL
  | PERSONAL
deriving DecidableEq, Repr

/-- The string `.value` of each `RiskCategory` member. -/
def RiskCategory.value : RiskCategory → String
  | .CAREER => "CAREER"
  | .FINANCIAL => "FINANCIAL"
  | .HEALTH => "HEALTH"
  | .TECHNICAL => "TECHNICAL"
  | .PERSONAL => "PERSONAL"

/-- Lookup of a `RiskCategory` by its string value (pydantic coerces a string
to a `str`-backed enum by exact value match). -/
def RiskCategory.fromValue? (s : String) : Option RiskCategory :=
  if s = "CAREER" then some .CAREER
  else if s = "FINANCIAL" then some .FINANCIAL
  else if s = "HEALTH" then some .HEALTH
  else if s = "TECHNICAL" then some .TECHNICAL
  else if s = "PERSONAL" then some .PERSONAL
  else none

/-- `TimeHorizon(str, Enum)` from `src/domain/models.py`. -/
inductive TimeHorizon where
  | WEEKS
  | MONTHS
deriving DecidableEq, Repr

/-- The string `.value` of each `TimeHorizon` member. -/
def TimeHorizon.value : TimeHorizon → String
  | .WEEKS => "WEEKS"
  | .MONTHS => "MONTHS"

/-- Lookup of a `TimeHorizon` by its string value. -/
def TimeHorizon.fromValue? (s : String) : Option TimeHorizon :=
  if s = "WEEKS" then some .WEEKS
  else if s = "MONTHS" then some .MONTHS
  else none

/-- `SignalStrength(str, Enum)` from `src/domain/models.py`. -/
inductive SignalStrength where
  | WEAK
  | MEDIUM
  | STRONG
deriving DecidableEq, Repr

/-- `SignalDirection(str, Enum)` from `src/domain/models.py`. -/
inductive SignalDirection where
  | INCREASE
  | DECREASE
deriving DecidableEq, Repr

/-- The `Risk` pydantic model (`src/domain/models.py`): raw field record.
Field constraints are checked by `mkRisk` below, mirroring construction-time
validation. -/
structure Risk where
  id : Option ℤ := none
  category : RiskCategory
  name : String
  description : Option String := none
  base_likelihood : ℚ
  impact : ℤ
  confidence : ℚ
  time_horizon : TimeHorizon
deriving DecidableEq, Repr

/-- The conjunction of the `Risk` model's declared field constraints:
`name` has `min_length=1, max_length=200`, `base_likelihood` and `confidence`
have `ge=0.0, le=1.0`, `impact` has `ge=1, le=5` (the `field_validator`s
restate the numeric bounds). -/
def Risk.Valid (r : Risk) : Prop :=
  0 ≤ r.base_likelihood ∧ r.base_likelihood ≤ 1 ∧
  1 ≤ r.impact ∧ r.impact ≤ 5 ∧
  0 ≤ r.confidence ∧ r.confidence ≤ 1 ∧
  1 ≤ r.name.length ∧ r.name.length ≤ 200

instance (r : Risk) : Decidable r.Valid :=
  inferInstanceAs (Decidable (_ ∧ _))

/-- Pydantic construction of a `Risk`: `some` when every field constraint
holds, `none` for a `ValidationError`. -/
def mkRisk (id : Option ℤ) (category : RiskCategory) (name : String)
    (description : Option String) (base_likelihood : ℚ) (impact : ℤ)
    (confidence : ℚ) (time_horizon : TimeHorizon) : Option Risk :=
  let r : Risk :=
    { id, category, name, description, base_likelihood, impact, confidence,
      time_horizon }
  if r.Valid then some r else none

/-- The `Signal` pydantic model (`src/domain/models.py`). Its field
constraints (`name` length, types) never fail in the claims' scope; the
record carries the raw fields. -/
structure Signal where
  id : Option ℤ := none
  risk_id : ℤ
  name : String
  description : Option String := none
  direction : SignalDirection
  strength : SignalStrength
deriving DecidableEq, Repr

/-- `Signal.get_likelihood_modifier` (`src/domain/models.py`): magnitude from
the strength table `{WEAK: 0.05, MEDIUM: 0.10, STRONG: 0.20}`, sign flipped
for `DECREASE`. -/
def Signal.get_likelihood_modifier (s : Signal) : ℚ :=
  let modifier : ℚ :=
    match s.strength with
    | .WEAK => 0.05
    | .MEDIUM => 0.10
    | .STRONG => 0.20
  if s.direction = .DECREASE then -modifier else modifier

/-- The `Assessment` pydantic model (`src/domain/models.py`). `assessed_at`
(wall-clock, `default_factory=now`) is omitted. Note the model constrains
each field individually (`effective_likelihood ∈ [0,1]`, `impact ∈ [1,5]`,
`confidence ∈ [0,1]`, `risk_score ≥ 0`, `signal_count ≥ 0`) but has no
validator relating `risk_score` to the other fields. -/
structure Assessment where
  id : Option ℤ := none
  risk_id : ℤ
  effective_likelihood : ℚ
  impact : ℤ
  confidence : ℚ
  risk_score : ℚ
  signal_count : ℕ
deriving DecidableEq, Repr

/-- Pydantic construction of an `Assessment`: checks exactly the declared
per-field bounds (`ge`/`le` on `Field` plus the probability
`field_validator`), nothing else. -/
def mkAssessment (risk_id : ℤ) (effective_likelihood : ℚ) (impact : ℤ)
    (confidence : ℚ) (risk_score : ℚ) (signal_count : ℕ) : Option Assessment :=
  if 0 ≤ effective_likelihood ∧ effective_likelihood ≤ 1 ∧
      1 ≤ impact ∧ impact ≤ 5 ∧
      0 ≤ confidence ∧ confidence ≤ 1 ∧
      0 ≤ risk_score then
    some { id := none, risk_id, effective_likelihood, impact, confidence,
           risk_score, signal_count }
  else none

/-- `calculate_effective_likelihood` (`src/domain/scoring.py`): start from
`base_likelihood`, add each signal's modifier in list order, then clamp once
with `max(0.0, min(1.0, effective))`. -/
def calculate_effective_likelihood (base_likelihood : ℚ)
    (signals : List Signal) : ℚ :=
  let effective : ℚ :=
    signals.foldl (fun acc s => acc + s.get_likelihood_modifier)
      base_likelihood
  max 0 (min 1 effective)

/-- `calculate_risk_score` (`src/domain/scoring.py`):
`likelihood * impact * confidence`. -/
def calculate_risk_score (likelihood : ℚ) (impact : ℤ)
    (confidence : ℚ) : ℚ :=
  likelihood * impact * confidence

/-- `assess_risk` (`src/domain/scoring.py`): compute the effective
likelihood and score, raise `ValueError` when `risk.id is None`, otherwise
build the `Assessment` (whose pydantic construction validates its fields; a
`ValidationError` there propagates, modelled as the second error branch). -/
def assess_risk (risk : Risk) (signals : List Signal) :
    Except String Assessment :=
  let effective_likelihood : ℚ :=
    calculate_effective_likelihood risk.base_likelihood signals
  let risk_score : ℚ :=
    calculate_risk_score effective_likelihood risk.impact risk.confidence
  match risk.id with
  | none => .error "Risk must have an ID to create an assessment"
  | some rid =>
    match mkAssessment rid effective_likelihood risk.impact risk.confidence
        risk_score signals.length with
    | some a => .ok a
    | none => .error "ValidationError"

/-- `assess_all_risks` (`src/domain/scoring.py`): list comprehension over the
pairs; Python's comprehension evaluates sequentially and a raised exception
aborts the whole call, which is `List.mapM` in the `Except` monad. -/
def assess_all_risks (risks_with_signals : List (Risk × List Signal)) :
    Except String (List Assessment) :=
  risks_with_signals.mapM fun p => assess_risk p.1 p.2

/-- The successful result of `assess_risk risk signals` (meaningful when
`risk.id` is present): the record `assess_risk` builds. -/
def assessedOf (risk : Risk) (signals : List Signal) : Assessment :=
  let el : ℚ := calculate_effective_likelihood risk.base_likelihood signals
  { id := none
    risk_id := risk.id.getD 0
    effective_likelihood := el
    impact := risk.impact
    confidence := risk.confidence
    risk_score := calculate_risk_score el risk.impact risk.confidence
    signal_count := signals.length }

example : calculate_effective_likelihood 0.5
    [ { risk_id := 1, name := "a", direction := .INCREASE,
        strength := .STRONG },
      { risk_id := 1, name := "b", direction := .DECREASE,
        strength := .WEAK } ] = 0.65 := by
  simp [calculate_effective_likelihood, Signal.get_likelihood_modifier]
  norm_num [max_def, min_def]

example : calculate_risk_score 0.65 3 0.8 = 1.56 := by
  norm_num [calculate_risk_score]

/-! ## Helper lemmas shared by the claim theorems -/

/-- Folding the modifier accumulation equals the initial value plus the sum
of the mapped modifiers. -/
theorem foldl_modifier_eq_add_sum (l : List Signal) (b : ℚ) :
    l.foldl (fun acc s => acc + s.get_likelihood_modifier) b =
      b + (l.map Signal.get_likelihood_modifier).sum := by
  induction l generalizing b with
  | nil => simp
  | cons s rest ih => simp [List.foldl_cons, ih, add_assoc]

/-- Closed form of `calculate_effective_likelihood`: clamp of base plus the
sum of modifiers. -/
theorem calculate_effective_likelihood_eq (bl : ℚ) (signals : List Signal) :
    calculate_effective_likelihood bl signals =
      max 0 (min 1 (bl + (signals.map Signal.get_likelihood_modifier).sum)) := by
  unfold calculate_effective_likelihood
  rw [foldl_modifier_eq_add_sum]

/-- The clamped effective likelihood is nonnegative. -/
theorem effective_likelihood_nonneg (bl : ℚ) (signals : List Signal) :
    0 ≤ calculate_effective_likelihood bl signals := by
  unfold calculate_effective_likelihood
  exact le_max_left _ _

/-- The clamped effective likelihood is at most one. -/
theorem effective_likelihood_le_one (bl : ℚ) (signals : List Signal) :
    calculate_effective_likelihood bl signals ≤ 1 := by
  unfold calculate_effective_likelihood
  exact max_le zero_le_one (min_le_left _ _)

/-- For a valid risk with a present id, `assess_risk` succeeds and returns
exactly `assessedOf risk signals` (the `Assessment`'s own field validation
passes). -/
theorem assess_risk_ok (risk : Risk) (signals : List Signal) (n : ℤ)
    (hv : risk.Valid) (hid : risk.id = some n) :
    assess_risk risk signals = .ok (assessedOf risk signals) := by
  obtain ⟨hbl0, hbl1, hi1, hi5, hc0, hc1, -, -⟩ := hv
  have hel0 : 0 ≤ calculate_effective_likelihood risk.base_likelihood signals :=
    effective_likelihood_nonneg _ _
  have hel1 : calculate_effective_likelihood risk.base_likelihood signals ≤ 1 :=
    effective_likelihood_le_one _ _
  have hiq : (0 : ℚ) ≤ (risk.impact : ℚ) := by
    exact_mod_cast le_trans zero_le_one hi1
  have hscore : 0 ≤ calculate_risk_score
      (calculate_effective_likelihood risk.base_likelihood signals)
      risk.impact risk.confidence := by
    unfold calculate_risk_score
    exact mul_nonneg (mul_nonneg hel0 hiq) hc0
  simp only [assess_risk, hid]
  simp only [mkAssessment]
  rw [if_pos ⟨hel0, hel1, hi1, hi5, hc0, hc1, hscore⟩]
  simp [assessedOf, hid]

/-! ## Concrete sample values used by witnesses -/

/-- A strong increase signal attached to risk 1. -/
def sigStrongInc : Signal :=
  { risk_id := 1, name := "strong increase", direction := .INCREASE,
    strength := .STRONG }

/-- A strong decrease signal attached to risk 1. -/
def sigStrongDec : Signal :=
  { risk_id := 1, name := "strong decrease", direction := .DECREASE,
    strength := .STRONG }

/-- A weak decrease signal attached to risk 1. -/
def sigWeakDec : Signal :=
  { risk_id := 1, name := "weak decrease", direction := .DECREASE,
    strength := .WEAK }

/-! ## Claim theorems -/

/-- C1: `calculate_effective_likelihood` returns the clamp to `[0,1]` of
`base_likelihood` plus the sum of the per-signal modifiers; the modifier is
0.05 / 0.10 / 0.20 by strength, negated exactly for `DECREASE`; the clamp is
applied once after the full sum, so an unclamped sum above 1 yields exactly
1 and one below 0 yields exactly 0. -/
theorem effective_likelihood_clamped_sum :
    (∀ s : Signal, s.get_likelihood_modifier =
      (match s.strength with
        | .WEAK => (0.05 : ℚ)
        | .MEDIUM => 0.10
        | .STRONG => 0.20) *
      (if s.direction = .DECREASE then -1 else 1)) ∧
    (∀ (bl : ℚ) (signals : List Signal),
      calculate_effective_likelihood bl signals =
        max 0 (min 1
          (bl + (signals.map Signal.get_likelihood_modifier).sum))) ∧
    (∀ (bl : ℚ) (signals : List Signal),
      1 < bl + (signals.map Signal.get_likelihood_modifier).sum →
        calculate_effective_likelihood bl signals = 1) ∧
    (∀ (bl : ℚ) (signals : List Signal),
      bl + (signals.map Signal.get_likelihood_modifier).sum < 0 →
        calculate_effective_likelihood bl signals = 0) := by
  refine ⟨?_, calculate_effective_likelihood_eq, ?_, ?_⟩
  · intro s
    unfold Signal.get_likelihood_modifier
    rcases hs : s.strength <;> rcases hd : s.direction <;> simp [hs, hd]
  · intro bl signals h
    rw [calculate_effective_likelihood_eq, min_eq_left h.le,
      max_eq_right zero_le_one]
  · intro bl signals h
    rw [calculate_effective_likelihood_eq,
      min_eq_right (le_of_lt (lt_trans h zero_lt_one)),
      max_eq_left h.le]

/-- Witness for C1: an unclamped sum of 1.5 clamps to exactly 1 and an
unclamped sum of −0.5 clamps to exactly 0. -/
theorem effective_likelihood_clamped_sum_witness :
    calculate_effective_likelihood 0.9
        [sigStrongInc, sigStrongInc, sigStrongInc] = 1 ∧
    calculate_effective_likelihood 0.1
        [sigStrongDec, sigStrongDec, sigStrongDec] = 0 :=
  ⟨effective_likelihood_clamped_sum.2.2.1 0.9 _
      (by simp [sigStrongInc, Signal.get_likelihood_modifier]; norm_num),
    effective_likelihood_clamped_sum.2.2.2 0.1 _
      (by simp [sigStrongDec, Signal.get_likelihood_modifier]; norm_num)⟩

/-- C2: `calculate_risk_score` is exactly the product
`likelihood * impact * confidence`, and for `likelihood ∈ [0,1]`,
`impact ∈ [1,5]`, `confidence ∈ [0,1]` the score lies in `[0,5]`. -/
theorem risk_score_formula :
    ∀ (likelihood : ℚ) (impact : ℤ) (confidence : ℚ),
      calculate_risk_score likelihood impact confidence =
        likelihood * impact * confidence ∧
      (0 ≤ likelihood → likelihood ≤ 1 → 1 ≤ impact → impact ≤ 5 →
        0 ≤ confidence → confidence ≤ 1 →
        0 ≤ calculate_risk_score likelihood impact confidence ∧
        calculate_risk_score likelihood impact confidence ≤ 5) := by
  intro l i c
  refine ⟨rfl, fun hl0 hl1 hi1 hi5 hc0 hc1 => ?_⟩
  have hiq0 : (0 : ℚ) ≤ (i : ℚ) := by exact_mod_cast le_trans zero_le_one hi1
  have hiq5 : (i : ℚ) ≤ 5 := by exact_mod_cast hi5
  unfold calculate_risk_score
  constructor
  · exact mul_nonneg (mul_nonneg hl0 hiq0) hc0
  · nlinarith [mul_nonneg hl0 hiq0, mul_nonneg hiq0 hc0, mul_nonneg hl0 hc0]

/-- Witness for C2: a concrete in-range triple has its score within
`[0, 5]`. -/
theorem risk_score_formula_witness :
    0 ≤ calculate_risk_score 0.5 3 0.8 ∧
    calculate_risk_score 0.5 3 0.8 ≤ 5 :=
  (risk_score_formula 0.5 3 0.8).2 (by norm_num) (by norm_num) (by norm_num)
    (by norm_num) (by norm_num) (by norm_num)

/-- C5: permuting the signal list does not change the effective likelihood
(in the exact rational model of the spec). -/
theorem effective_likelihood_perm_invariant :
    ∀ (bl : ℚ) (s1 s2 : List Signal), s1.Perm s2 →
      calculate_effective_likelihood bl s1 =
        calculate_effective_likelihood bl s2 := by
  intro bl s1 s2 h
  rw [calculate_effective_likelihood_eq, calculate_effective_likelihood_eq,
    (h.map Signal.get_likelihood_modifier).sum_eq]

/-- Witness for C5: swapping a two-element signal list leaves the effective
likelihood unchanged. -/
theorem effective_likelihood_perm_invariant_witness :
    calculate_effective_likelihood 0.5 [sigStrongInc, sigWeakDec] =
      calculate_effective_likelihood 0.5 [sigWeakDec, sigStrongInc] :=
  effective_likelihood_perm_invariant 0.5 _ _ (List.Perm.swap _ _ _)

/-- A concrete valid, persisted risk (fields from the repository's own API
test), used by witnesses. -/
def riskSample : Risk :=
  { id := some 1, category := .TECHNICAL, name := "deployment failure",
    base_likelihood := 0.3, impact := 4, confidence := 0.8,
    time_horizon := .WEEKS }

/-- `riskSample` satisfies every field constraint of the `Risk` model. -/
theorem riskSample_valid : riskSample.Valid := by
  unfold Risk.Valid riskSample
  exact ⟨by norm_num, by norm_num, by norm_num, by norm_num, by norm_num,
    by norm_num, by decide, by decide⟩

/-- C3: for a valid risk with a present id, `assess_risk` returns an
`Assessment` with `risk_id = risk.id`, `impact`/`confidence` copied from the
risk, `signal_count` the length of the signal list, the effective likelihood
from `calculate_effective_likelihood`, and the score from
`calculate_risk_score`; with no signals the effective likelihood is the base
likelihood. -/
theorem assess_risk_fields :
    ∀ (risk : Risk) (signals : List Signal) (n : ℤ),
      risk.Valid → risk.id = some n →
      assess_risk risk signals = .ok
        { id := none
          risk_id := n
          effective_likelihood :=
            calculate_effective_likelihood risk.base_likelihood signals
          impact := risk.impact
          confidence := risk.confidence
          risk_score := calculate_risk_score
            (calculate_effective_likelihood risk.base_likelihood signals)
            risk.impact risk.confidence
          signal_count := signals.length } ∧
      calculate_effective_likelihood risk.base_likelihood [] =
        risk.base_likelihood := by
  intro risk signals n hv hid
  refine ⟨?_, ?_⟩
  · rw [assess_risk_ok risk signals n hv hid]
    simp [assessedOf, hid]
  · obtain ⟨hbl0, hbl1, -⟩ := hv
    rw [calculate_effective_likelihood_eq]
    simp [min_eq_right hbl1, max_eq_right hbl0]

/-- Witness for C3: assessing `riskSample` with no signals copies its fields
and keeps the base likelihood. -/
theorem assess_risk_fields_witness :
    assess_risk riskSample [] = .ok
      { id := none
        risk_id := 1
        effective_likelihood :=
          calculate_effective_likelihood riskSample.base_likelihood []
        impact := riskSample.impact
        confidence := riskSample.confidence
        risk_score := calculate_risk_score
          (calculate_effective_likelihood riskSample.base_likelihood [])
          riskSample.impact riskSample.confidence
        signal_count := 0 } ∧
    calculate_effective_likelihood riskSample.base_likelihood [] =
      riskSample.base_likelihood :=
  assess_risk_fields riskSample [] 1 riskSample_valid rfl

/-- C4: `assess_risk` fails with the `InvalidState`-kind error exactly when
`risk.id` is absent; for a (constructible, i.e. valid) risk with a present
id it returns an `Assessment` without raising. -/
theorem assess_risk_id_required :
    ∀ (risk : Risk) (signals : List Signal),
      (risk.id = none →
        assess_risk risk signals =
          .error "Risk must have an ID to create an assessment") ∧
      (risk.Valid → risk.id ≠ none →
        ∃ a, assess_risk risk signals = .ok a) := by
  intro risk signals
  constructor
  · intro h
    simp only [assess_risk, h]
  · intro hv hid
    obtain ⟨n, hn⟩ := Option.ne_none_iff_exists'.mp hid
    exact ⟨assessedOf risk signals, assess_risk_ok risk signals n hv hn⟩

/-- A risk that was never persisted (`id` absent), used by witnesses. -/
def riskNoId : Risk :=
  { id := none, category := .CAREER, name := "unsaved",
    base_likelihood := 0.5, impact := 3, confidence := 0.9,
    time_horizon := .MONTHS }

/-- Witness for C4: an id-less risk is rejected and a persisted one is
assessed. -/
theorem assess_risk_id_required_witness :
    assess_risk riskNoId [] =
      .error "Risk must have an ID to create an assessment" ∧
    ∃ a, assess_risk riskSample [] = .ok a :=
  ⟨(assess_risk_id_required riskNoId []).1 rfl,
    (assess_risk_id_required riskSample []).2 riskSample_valid
      (by simp [riskSample])⟩

/-- If every pair's assessment succeeds pointwise, the batch returns the
element-wise list of results in input order. -/
theorem assess_all_risks_ok (pairs : List (Risk × List Signal))
    (h : ∀ p ∈ pairs, assess_risk p.1 p.2 = .ok (assessedOf p.1 p.2)) :
    assess_all_risks pairs = .ok (pairs.map fun p => assessedOf p.1 p.2) := by
  induction pairs with
  | nil => rfl
  | cons p rest ih =>
    have hp := h p (List.mem_cons_self p rest)
    have hrest := fun q hq => h q (List.mem_cons_of_mem p hq)
    simp only [assess_all_risks, List.mapM_cons] at ih ⊢
    rw [hp, ih hrest]
    rfl

/-- C6: for pairs whose risks are valid and persisted, `assess_all_risks`
returns exactly the list of `assess_risk` results of the pairs, in input
order, each element computed independently from its own pair. -/
theorem assess_all_risks_elementwise :
    ∀ (pairs : List (Risk × List Signal)),
      (∀ p ∈ pairs, p.1.Valid ∧ p.1.id.isSome) →
      assess_all_risks pairs =
        .ok (pairs.map fun p => assessedOf p.1 p.2) ∧
      ∀ p ∈ pairs, assess_risk p.1 p.2 = .ok (assessedOf p.1 p.2) := by
  intro pairs h
  have hall : ∀ p ∈ pairs, assess_risk p.1 p.2 = .ok (assessedOf p.1 p.2) := by
    intro p hp
    obtain ⟨hv, hid⟩ := h p hp
    obtain ⟨n, hn⟩ := Option.isSome_iff_exists.mp hid
    exact assess_risk_ok p.1 p.2 n hv hn
  exact ⟨assess_all_risks_ok pairs hall, hall⟩

/-- Witness for C6: a concrete two-pair batch equals the element-wise
results in order. -/
theorem assess_all_risks_elementwise_witness :
    assess_all_risks [(riskSample, [sigStrongInc]), (riskSample, [])] =
      .ok [assessedOf riskSample [sigStrongInc], assessedOf riskSample []] ∧
    ∀ p ∈ [(riskSample, [sigStrongInc]), (riskSample, [])],
      assess_risk p.1 p.2 = .ok (assessedOf p.1 p.2) :=
  assess_all_risks_elementwise _ (by
    intro p hp
    simp only [List.mem_cons, List.not_mem_nil, or_false] at hp
    rcases hp with h | h <;> subst h <;> exact ⟨riskSample_valid, rfl⟩)

/-- C7 counterexample: the `Assessment` model has no validator relating
`risk_score` to the other fields, so a direct construction with
`risk_score = 0.5` but `effective_likelihood × impact × confidence = 0.25`
succeeds. -/
theorem assessment_invariant_not_enforced :
    ∃ a : Assessment, mkAssessment 1 0.5 1 0.5 0.5 0 = some a ∧
      a.risk_score ≠ a.effective_likelihood * a.impact * a.confidence := by
  refine ⟨Assessment.mk none 1 0.5 1 0.5 0.5 0, ?_, by norm_num⟩
  unfold mkAssessment
  rw [if_pos]
  exact ⟨by norm_num, by norm_num, by norm_num, by norm_num, by norm_num,
    by norm_num, by norm_num⟩

/-- C7 (amended): every `Assessment` produced by `assess_risk` satisfies
`risk_score = effective_likelihood × impact × confidence` exactly; the model
itself does not enforce the relation on direct construction. -/
theorem assessment_invariant_engine :
    ∀ (risk : Risk) (signals : List Signal) (a : Assessment),
      assess_risk risk signals = .ok a →
      a.risk_score = a.effective_likelihood * a.impact * a.confidence := by
  intro risk signals a h
  rcases hid : risk.id with - | rid
  · simp only [assess_risk, hid] at h
    exact absurd h (by simp)
  · simp only [assess_risk, hid] at h
    rcases hmk : mkAssessment rid
        (calculate_effective_likelihood risk.base_likelihood signals)
        risk.impact risk.confidence
        (calculate_risk_score
          (calculate_effective_likelihood risk.base_likelihood signals)
          risk.impact risk.confidence)
        signals.length with - | a'
    · rw [hmk] at h
      exact absurd h (by simp)
    · rw [hmk] at h
      simp only [Except.ok.injEq] at h
      subst h
      unfold mkAssessment at hmk
      split at hmk
      · simp only [Option.some.injEq] at hmk
        subst hmk
        rfl
      · exact absurd hmk (by simp)

/-- Witness for C7's amended theorem: the engine's output on `riskSample`
satisfies the product invariant. -/
theorem assessment_invariant_engine_witness :
    (assessedOf riskSample []).risk_score =
      (assessedOf riskSample []).effective_likelihood *
        (assessedOf riskSample []).impact *
        (assessedOf riskSample []).confidence :=
  assessment_invariant_engine riskSample [] _
    (assess_risk_ok riskSample [] 1 riskSample_valid rfl)

/-- C10: `assess_risk` never consults the signals' `risk_id`: the modifier
is independent of it, rewriting every signal's `risk_id` leaves the whole
assessment unchanged, and with a valid persisted risk every signal is
counted and contributes its modifier even when its `risk_id` differs from
the risk's id. -/
theorem assess_risk_ignores_signal_risk_id :
    (∀ (s : Signal) (rid : ℤ),
      ({ s with risk_id := rid } : Signal).get_likelihood_modifier =
        s.get_likelihood_modifier) ∧
    (∀ (risk : Risk) (signals : List Signal) (f : Signal → ℤ),
      assess_risk risk (signals.map fun s => { s with risk_id := f s }) =
        assess_risk risk signals) ∧
    (∀ (risk : Risk) (signals : List Signal) (n : ℤ),
      risk.Valid → risk.id = some n →
      ∃ a, assess_risk risk signals = .ok a ∧
        a.signal_count = signals.length ∧
        a.effective_likelihood = max 0 (min 1 (risk.base_likelihood +
          (signals.map Signal.get_likelihood_modifier).sum))) := by
  refine ⟨fun s rid => rfl, ?_, ?_⟩
  · intro risk signals f
    have h1 : calculate_effective_likelihood risk.base_likelihood
          (signals.map fun s => { s with risk_id := f s }) =
        calculate_effective_likelihood risk.base_likelihood signals := by
      rw [calculate_effective_likelihood_eq, calculate_effective_likelihood_eq,
        List.map_map]
      rfl
    have h2 : (signals.map fun s => { s with risk_id := f s }).length =
        signals.length := List.length_map _ _
    simp only [assess_risk, h1, h2]
  · intro risk signals n hv hid
    exact ⟨assessedOf risk signals, assess_risk_ok risk signals n hv hid,
      rfl, calculate_effective_likelihood_eq _ _⟩

/-- A signal whose `risk_id` (999) does not match `riskSample`'s id (1). -/
def sigMismatch : Signal :=
  { risk_id := 999, name := "mismatched", direction := .INCREASE,
    strength := .MEDIUM }

/-- Witness for C10: a signal pointing at a different risk is still counted
and still moves the likelihood. -/
theorem assess_risk_ignores_signal_risk_id_witness :
    ∃ a, assess_risk riskSample [sigMismatch] = .ok a ∧
      a.signal_count = 1 ∧
      a.effective_likelihood = max 0 (min 1 (riskSample.base_likelihood +
        ([sigMismatch].map Signal.get_likelihood_modifier).sum)) :=
  assess_risk_ignores_signal_risk_id.2.2 riskSample [sigMismatch] 1
    riskSample_valid rfl

/-- C8: `Risk` construction succeeds exactly when every field is within its
declared bound; in particular `base_likelihood = 1.5` fails while `1.0`
succeeds, `impact = 0` and `6` fail while `1` and `5` succeed, and an empty
name or a 201-character name fails. -/
theorem risk_construction_bounds :
    (∀ (id : Option ℤ) (category : RiskCategory) (name : String)
        (description : Option String) (bl : ℚ) (impact : ℤ) (conf : ℚ)
        (th : TimeHorizon),
      (mkRisk id category name description bl impact conf th).isSome = true ↔
        (0 ≤ bl ∧ bl ≤ 1 ∧ 1 ≤ impact ∧ impact ≤ 5 ∧ 0 ≤ conf ∧ conf ≤ 1 ∧
          1 ≤ name.length ∧ name.length ≤ 200)) ∧
    mkRisk none .CAREER "x" none 1.5 3 0.5 .WEEKS = none ∧
    (mkRisk none .CAREER "x" none 1.0 3 0.5 .WEEKS).isSome = true ∧
    mkRisk none .CAREER "x" none 0.5 0 0.5 .WEEKS = none ∧
    mkRisk none .CAREER "x" none 0.5 6 0.5 .WEEKS = none ∧
    (mkRisk none .CAREER "x" none 0.5 1 0.5 .WEEKS).isSome = true ∧
    (mkRisk none .CAREER "x" none 0.5 5 0.5 .WEEKS).isSome = true ∧
    mkRisk none .CAREER "" none 0.5 3 0.5 .WEEKS = none ∧
    mkRisk none .CAREER (String.mk (List.replicate 201 'x')) none
      0.5 3 0.5 .WEEKS = none := by
  have hiff : ∀ (id : Option ℤ) (category : RiskCategory) (name : String)
      (description : Option String) (bl : ℚ) (impact : ℤ) (conf : ℚ)
      (th : TimeHorizon),
      (mkRisk id category name description bl impact conf th).isSome = true ↔
        (0 ≤ bl ∧ bl ≤ 1 ∧ 1 ≤ impact ∧ impact ≤ 5 ∧ 0 ≤ conf ∧ conf ≤ 1 ∧
          1 ≤ name.length ∧ name.length ≤ 200) := by
    intro id category name description bl impact conf th
    unfold mkRisk Risk.Valid
    dsimp only
    split
    · simp_all
    · simp_all
  have hnone : ∀ (name : String) (bl : ℚ) (impact : ℤ) (conf : ℚ),
      ¬(0 ≤ bl ∧ bl ≤ 1 ∧ 1 ≤ impact ∧ impact ≤ 5 ∧ 0 ≤ conf ∧ conf ≤ 1 ∧
          1 ≤ name.length ∧ name.length ≤ 200) →
      mkRisk none .CAREER name none bl impact conf .WEEKS = none := by
    intro name bl impact conf hnb
    exact Option.not_isSome_iff_eq_none.mp fun hs =>
      hnb ((hiff none .CAREER name none bl impact conf .WEEKS).mp hs)
  refine ⟨hiff, ?_, ?_, ?_, ?_, ?_, ?_, ?_, ?_⟩
  · exact hnone "x" 1.5 3 0.5 (by rintro ⟨-, h, -⟩; norm_num at h)
  · exact (hiff none .CAREER "x" none 1.0 3 0.5 .WEEKS).mpr
      ⟨by norm_num, by norm_num, by norm_num, by norm_num, by norm_num,
        by norm_num, by decide, by decide⟩
  · exact hnone "x" 0.5 0 0.5 (by rintro ⟨-, -, h, -⟩; norm_num at h)
  · exact hnone "x" 0.5 6 0.5 (by rintro ⟨-, -, -, h, -⟩; norm_num at h)
  · exact (hiff none .CAREER "x" none 0.5 1 0.5 .WEEKS).mpr
      ⟨by norm_num, by norm_num, by norm_num, by norm_num, by norm_num,
        by norm_num, by decide, by decide⟩
  · exact (hiff none .CAREER "x" none 0.5 5 0.5 .WEEKS).mpr
      ⟨by norm_num, by norm_num, by norm_num, by norm_num, by norm_num,
        by norm_num, by decide, by decide⟩
  · exact hnone "" 0.5 3 0.5 (by rintro ⟨-, -, -, -, -, -, h, -⟩; simp at h)
  · exact hnone (String.mk (List.replicate 201 'x')) 0.5 3 0.5
      (by
        rintro ⟨-, -, -, -, -, -, -, h⟩
        simp only [String.length_mk, List.length_replicate] at h
        omega)

/-!
## Bulk import (`src/api/data_input.py`)

A pandas row (`row.to_dict()`) is a finite map from column names to cell
values. Cell values are modelled by `PyVal`: a missing key behaves as
Python `None` via `dict.get` (a present-but-empty pandas cell is NaN, which
— like `None` here — ends in the row being rejected, so both are modelled
as `null`). Numeric cells are numbers; `float()` / `int()` on them follow
Python (with `int()` truncating toward zero); parsing of decimal strings
into numbers is not needed by any claim and yields `none`
(a `ValueError`, caught by the handler's `except`).
-/

/-- A Python cell value as it appears in a row dict. -/
inductive PyVal where
  | null
  | str (s : String)
  | int (n : ℤ)
  | rat (q : ℚ)
deriving DecidableEq, Repr

/-- Python truthiness of a cell value (`if row.get(f)`). -/
def PyVal.truthy : PyVal → Bool
  | .null => false
  | .str s => s ≠ ""
  | .int n => n ≠ 0
  | .rat q => q ≠ 0

/-- Python `str()` of a cell value. -/
def PyVal.toText : PyVal → String
  | .null => "None"
  | .str s => s
  | .int n => toString n
  | .rat q => toString q

/-- Python `float()` of a cell value (`ValueError` on non-numeric input). -/
def PyVal.toFloat? : PyVal → Option ℚ
  | .int n => some (n : ℚ)
  | .rat q => some q
  | _ => none

/-- Python `int()` of a cell value: identity on ints, truncation toward
zero on floats, `ValueError` otherwise. -/
def PyVal.toInt? : PyVal → Option ℤ
  | .int n => some n
  | .rat q => some (if 0 ≤ q then ⌊q⌋ else ⌈q⌉)
  | _ => none

/-- A row dict: association list from column name to cell value. -/
def Row : Type := List (String × PyVal)

/-- `row.get(f)`: the first binding of `f`, `None` when absent. -/
def rowGet (row : Row) (f : String) : PyVal :=
  (((row : List (String × PyVal)).find? fun kv => kv.1 == f).map
    Prod.snd).getD .null

/-- `next((row.get(f) for f in fields if row.get(f)), None)`: the first
truthy value among the candidate columns. -/
def firstTruthy (row : Row) : List String → Option PyVal
  | [] => none
  | f :: rest =>
    let v := rowGet row f
    if v.truthy then some v else firstTruthy row rest

/-- `next((row.get(f) for f in fields if row.get(f) is not None), None)`:
the first non-`None` value among the candidate columns. -/
def firstNonNull (row : Row) : List String → Option PyVal
  | [] => none
  | f :: rest =>
    let v := rowGet row f
    if v = .null then firstNonNull row rest else some v

/-- The column-name synonyms for a risk's name. -/
def name_fields : List String := ["name", "risk_name", "title", "risk"]

/-- The column-name synonyms for a risk's category. -/
def category_fields : List String := ["category", "risk_category", "type"]

/-- The column-name synonyms for a risk's base likelihood. -/
def likelihood_fields : List String :=
  ["base_likelihood", "likelihood", "probability"]

/-- The column-name synonyms for a risk's impact. -/
def impact_fields : List String := ["impact", "severity"]

/-- The column-name synonyms for a risk's confidence. -/
def confidence_fields : List String := ["confidence", "certainty"]

/-- The column-name synonyms for a risk's time horizon. -/
def horizon_fields : List String := ["time_horizon", "horizon", "timeframe"]

/-- `[c.value for c in RiskCategory]` — the uppercase member values. -/
def riskCategoryValues : List String :=
  [RiskCategory.CAREER, .FINANCIAL, .HEALTH, .TECHNICAL, .PERSONAL].map
    RiskCategory.value

/-- `[h.value for h in TimeHorizon]` — the uppercase member values. -/
def timeHorizonValues : List String :=
  [TimeHorizon.WEEKS, .MONTHS].map TimeHorizon.value

/-- Python `s.lower()` (ASCII case folding over the characters). -/
def pyLower (s : String) : String := String.mk (s.data.map Char.toLower)

/-- Python `s.strip()`: drop leading and trailing whitespace. -/
def pyStrip (s : String) : String :=
  String.mk
    (((s.data.dropWhile Char.isWhitespace).reverse.dropWhile
      Char.isWhitespace).reverse)

/-- The cleaned dict built by `validate_and_clean_risk_data`. -/
structure CleanedRisk where
  name : String
  category : String
  base_likelihood : ℚ
  impact : ℤ
  confidence : ℚ
  time_horizon : String
  description : String
deriving DecidableEq, Repr

/-- `row.get("description", "")`, as text. -/
def descriptionOf (row : Row) : String :=
  match rowGet row "description" with
  | .null => ""
  | v => v.toText

/-- `Risk(**cleaned)` — pydantic re-validation of the cleaned dict: the
category and horizon strings must match an enum value exactly, and the
numeric and name bounds must hold. -/
def riskOfCleaned (c : CleanedRisk) : Option Risk := do
  let category ← RiskCategory.fromValue? c.category
  let time_horizon ← TimeHorizon.fromValue? c.time_horizon
  mkRisk none category c.name (some c.description) c.base_likelihood
    c.impact c.confidence time_horizon

/-- `validate_and_clean_risk_data` (`src/api/data_input.py`): resolve each
required field through its synonyms, check the lower-cased trimmed category
and horizon against the enum `.value` lists, convert the numerics, validate
through the `Risk` model, and return the cleaned dict — `none` on any
failure. -/
def validate_and_clean_risk_data (row : Row) : Option CleanedRisk :=
  match firstTruthy row name_fields, firstTruthy row category_fields,
      firstNonNull row likelihood_fields, firstNonNull row impact_fields,
      firstNonNull row confidence_fields, firstTruthy row horizon_fields with
  | some name, some category, some likelihood, some impact, some confidence,
      some horizon =>
    let category_str := pyStrip (pyLower category.toText)
    if category_str ∈ riskCategoryValues then
      let horizon_str := pyStrip (pyLower horizon.toText)
      if horizon_str ∈ timeHorizonValues then
        match likelihood.toFloat?, impact.toInt?, confidence.toFloat? with
        | some l, some i, some c =>
          let cleaned : CleanedRisk :=
            { name := pyStrip name.toText
              category := category_str
              base_likelihood := l
              impact := i
              confidence := c
              time_horizon := horizon_str
              description := descriptionOf row }
          match riskOfCleaned cleaned with
          | some _ => some cleaned
          | none => none
        | _, _, _ => none
      else none
    else none
  | _, _, _, _, _, _ => none

/-- The row loop of `upload_risks_csv`: counts of processed and created
rows and the per-row error list (the `create_risk` database insert is an
external collaborator assumed to succeed; the response truncates `errors`
to the first 10). -/
def upload_risks_rows (rows : List Row) : ℕ × ℕ × List String :=
  rows.enum.foldl
    (fun acc ir =>
      match validate_and_clean_risk_data ir.2 with
      | some _ => (acc.1 + 1, acc.2.1 + 1, acc.2.2)
      | none =>
        (acc.1 + 1, acc.2.1,
          acc.2.2 ++ ["Row " ++ toString (ir.1 + 1) ++
            ": Invalid or missing data"]))
    (0, 0, [])

/-- `Char.ofNat` of a scalar value below the surrogate range keeps its
numeric value. -/
theorem char_toNat_ofNat (n : ℕ) (h : n < 55296) : (Char.ofNat n).toNat = n := by
  unfold Char.ofNat
  rw [dif_pos (Or.inl h)]
  rfl

/-- `Char.toLower` never produces a basic-latin uppercase letter. -/
theorem toLower_not_upper (c : Char) :
    ¬(65 ≤ (Char.toLower c).toNat ∧ (Char.toLower c).toNat ≤ 90) := by
  unfold Char.toLower
  dsimp only
  split
  · rename_i h
    rw [char_toNat_ofNat _ (by omega)]
    omega
  · rename_i h
    exact fun hc => h ⟨hc.1, hc.2⟩

/-- Characters of a stripped string come from the original string. -/
theorem pyStrip_mem (t : String) (x : Char) (hx : x ∈ (pyStrip t).data) :
    x ∈ t.data := by
  unfold pyStrip at hx
  rw [List.mem_reverse] at hx
  have h1 := (List.dropWhile_sublist _).subset hx
  rw [List.mem_reverse] at h1
  exact (List.dropWhile_sublist _).subset h1

/-- A lower-cased then stripped string cannot equal any string containing a
basic-latin uppercase letter. -/
theorem pyStripLower_ne (s v : String) (f : Char) (hf : f ∈ v.data)
    (h65 : 65 ≤ f.toNat) (h90 : f.toNat ≤ 90) :
    pyStrip (pyLower s) ≠ v := by
  intro he
  have hmem : f ∈ (pyStrip (pyLower s)).data := he ▸ hf
  have hmem2 : f ∈ (pyLower s).data := pyStrip_mem _ _ hmem
  have hmem3 : f ∈ s.data.map Char.toLower := hmem2
  obtain ⟨c, -, hc⟩ := List.mem_map.mp hmem3
  exact toLower_not_upper c ⟨hc ▸ h65, hc ▸ h90⟩

/-- The lower-cased, trimmed category string can never match the uppercase
member values the code compares it against. -/
theorem pyLower_not_in_categories (s : String) :
    pyStrip (pyLower s) ∉ riskCategoryValues := by
  intro h
  simp only [riskCategoryValues, RiskCategory.value, List.map, List.mem_cons,
    List.not_mem_nil, or_false] at h
  rcases h with h | h | h | h | h
  · exact pyStripLower_ne s "CAREER" 'C' (by decide) (by decide) (by decide) h
  · exact pyStripLower_ne s "FINANCIAL" 'F' (by decide) (by decide)
      (by decide) h
  · exact pyStripLower_ne s "HEALTH" 'H' (by decide) (by decide) (by decide) h
  · exact pyStripLower_ne s "TECHNICAL" 'T' (by decide) (by decide)
      (by decide) h
  · exact pyStripLower_ne s "PERSONAL" 'P' (by decide) (by decide)
      (by decide) h

/-- The repository's own API-test CSV row: lowercase category and horizon. -/
def csvRowLower : Row :=
  [("name", .str "Career stagnation"), ("category", .str "career"),
   ("base_likelihood", .rat 0.4), ("impact", .int 3),
   ("confidence", .rat 0.7), ("time_horizon", .str "months"),
   ("description", .str "Lack of skill development")]

/-- The same row with the enum values in their canonical uppercase casing. -/
def csvRowUpper : Row :=
  [("name", .str "Career stagnation"), ("category", .str "CAREER"),
   ("base_likelihood", .rat 0.4), ("impact", .int 3),
   ("confidence", .rat 0.7), ("time_horizon", .str "MONTHS"),
   ("description", .str "Lack of skill development")]

/-- C9: the category check lower-cases the cell but compares it against the
UPPERCASE enum `.value` strings, so no letter-casing of a valid category can
pass: every row is rejected, including the repository's own test rows with
category `career` and `CAREER`, and the upload loop creates no records. -/
theorem csv_category_check_rejects_all_rows :
    (∀ row : Row, validate_and_clean_risk_data row = none) ∧
    validate_and_clean_risk_data csvRowLower = none ∧
    validate_and_clean_risk_data csvRowUpper = none ∧
    upload_risks_rows [csvRowLower, csvRowUpper] =
      (2, 0, ["Row 1: Invalid or missing data",
        "Row 2: Invalid or missing data"]) := by
  have huniv : ∀ row : Row, validate_and_clean_risk_data row = none := by
    intro row
    unfold validate_and_clean_risk_data
    split
    · dsimp only
      rw [if_neg (pyLower_not_in_categories _)]
    · rfl
  refine ⟨huniv, by decide, by decide, by decide⟩
